import Mathlib

/-!
Verification development for the zigbee-adapter capability classifier and the
zigbee2mqtt property transcoders.  The definitions below are shallow embeddings
of the JavaScript sources `src/zb-classifier.js` and the zigbee2mqtt property
module: pure computations are translated to Lean functions, JavaScript numbers
are modelled as exact rationals (the concrete values handled here are far below
the range where IEEE double rounding could change a `Math.round` result), and
code that throws is modelled with `Except`.  Helpers that live in repository
files outside the provided sources (`zb-node.js`, `zb-property.js`,
`zb-constants.js`) are modelled from the specification and say so in their
doc comments.
-/

namespace Zb

/-- JavaScript `Math.round` on an exact rational: round half toward positive
infinity, i.e. `⌊q + 1/2⌋`. -/
def jsRound (q : ℚ) : ℤ := ⌊q + 1/2⌋

theorem jsRound_dist (q : ℚ) : |(jsRound q : ℚ) - q| ≤ 1/2 := by
  rw [abs_le]
  have h1 := Int.floor_le (q + 1/2)
  have h2 := Int.lt_floor_add_one (q + 1/2)
  constructor <;> simp only [jsRound] <;> push_cast at h1 h2 ⊢ <;> linarith

/-- The run-mode transcoder `convertHeatingCoolingValue` from the zigbee2mqtt
property module: `idle ↦ off`, `heat ↦ heating`, `cool ↦ cooling`, anything
else throws (modelled as `Except.error` carrying the message text). -/
def convertHeatingCoolingValue (value : String) : Except String String :=
  if value = "idle" then .ok "off"
  else if value = "heat" then .ok "heating"
  else if value = "cool" then .ok "cooling"
  else .error ("Invalid HeatingCoolingValue " ++ value ++ ", expected idle, heat or cool")

/-- JavaScript `Array.prototype.map` with a throwing callback aborts at the
first exception; this recursion mirrors that for `convertHeatingCoolingValue`. -/
def convertHeatingCoolingList : List String → Except String (List String)
  | [] => .ok []
  | x :: xs =>
    match convertHeatingCoolingValue x with
    | .error e => .error e
    | .ok y =>
      match convertHeatingCoolingList xs with
      | .error e => .error e
      | .ok ys => .ok (y :: ys)

/-- The enum-list conversion `convertHeatingCoolingValues` used by the
`HeatingCoolingProperty` constructor: an absent list is passed through, a
present list is mapped elementwise and any exception propagates. -/
def convertHeatingCoolingValues : Option (List String) → Except String (Option (List String))
  | none => .ok none
  | some l =>
    match convertHeatingCoolingList l with
    | .error e => .error e
    | .ok ys => .ok (some ys)

/-- Boolean success test for the `Except`-modelled transcoders. -/
def exceptOk {ε α : Type} : Except ε α → Bool
  | .ok _ => true
  | .error _ => false

theorem convertHeatingCoolingList_ok_iff (l : List String) :
    exceptOk (convertHeatingCoolingList l) = true ↔
      ∀ s ∈ l, s ∈ (["idle", "heat", "cool"] : List String) := by
  induction l with
  | nil => simp [convertHeatingCoolingList, exceptOk]
  | cons x xs ih =>
    by_cases hx : x ∈ (["idle", "heat", "cool"] : List String)
    · have hconv : exceptOk (convertHeatingCoolingValue x) = true := by
        simp only [List.mem_cons, List.mem_singleton, List.not_mem_nil, or_false] at hx
        rcases hx with h | h | h <;> subst h <;> rfl
      cases hcv : convertHeatingCoolingValue x with
      | error e => rw [hcv] at hconv; simp [exceptOk] at hconv
      | ok y =>
        cases hrec : convertHeatingCoolingList xs with
        | error e =>
          rw [hrec] at ih
          simp only [convertHeatingCoolingList, hcv, hrec]
          simp only [exceptOk, Bool.false_eq_true, false_iff] at ih ⊢
          intro hall
          exact ih (fun s hs => hall s (List.mem_cons_of_mem x hs))
        | ok ys =>
          rw [hrec] at ih
          simp only [convertHeatingCoolingList, hcv, hrec]
          simp only [exceptOk, true_iff] at ih ⊢
          intro s hs
          rcases List.mem_cons.mp hs with h | h
          · exact h ▸ hx
          · exact ih s h
    · have hconv : exceptOk (convertHeatingCoolingValue x) = false := by
        simp only [List.mem_cons, List.mem_singleton, List.not_mem_nil, or_false,
          not_or] at hx
        obtain ⟨h1, h2, h3⟩ := hx
        simp [convertHeatingCoolingValue, h1, h2, h3, exceptOk]
      cases hcv : convertHeatingCoolingValue x with
      | ok y => rw [hcv] at hconv; simp [exceptOk] at hconv
      | error e =>
        simp only [convertHeatingCoolingList, hcv]
        simp only [exceptOk, Bool.false_eq_true, false_iff]
        intro hall
        exact hx (hall x (List.mem_cons_self x xs))

/-- C7: the run-mode transcoder maps exactly `heat ↦ heating`, `cool ↦ cooling`
and `idle ↦ off`; every other input string produces an error (the value is
never coerced), both for a single reported value and for the enum list
converted at construction time. -/
theorem runMode_mapping :
    convertHeatingCoolingValue "heat" = .ok "heating" ∧
    convertHeatingCoolingValue "cool" = .ok "cooling" ∧
    convertHeatingCoolingValue "idle" = .ok "off" ∧
    (∀ s : String, s ∉ (["idle", "heat", "cool"] : List String) →
      ∃ e, convertHeatingCoolingValue s = .error e) ∧
    (∀ l : List String,
      exceptOk (convertHeatingCoolingValues (some l)) = true ↔
        ∀ s ∈ l, s ∈ (["idle", "heat", "cool"] : List String)) := by
  refine ⟨rfl, rfl, rfl, ?_, ?_⟩
  · intro s hs
    simp only [List.mem_cons, List.mem_singleton, List.not_mem_nil, or_false,
      not_or] at hs
    obtain ⟨h1, h2, h3⟩ := hs
    exact ⟨"Invalid HeatingCoolingValue " ++ s ++ ", expected idle, heat or cool",
      by simp [convertHeatingCoolingValue, h1, h2, h3]⟩
  · intro l
    rw [← convertHeatingCoolingList_ok_iff l]
    cases h : convertHeatingCoolingList l with
    | error e => simp [convertHeatingCoolingValues, h, exceptOk]
    | ok ys => simp [convertHeatingCoolingValues, h, exceptOk]

namespace BrightnessProperty

/-- `BrightnessProperty.update` (device value to percent):
`Math.round((value / (expose.value_max ?? 100)) * 100)`.  `valueMax` is the
expose's declared `value_max`, absent when the expose declares no maximum. -/
def update (valueMax : Option ℚ) (value : ℚ) : ℤ :=
  jsRound (value / valueMax.getD 100 * 100)

/-- `BrightnessProperty.sendValue` (percent to device value):
`Math.round((value / 100) * (expose.value_max ?? 100))`. -/
def sendValue (valueMax : Option ℚ) (value : ℚ) : ℤ :=
  jsRound (value / 100 * valueMax.getD 100)

end BrightnessProperty

/-- C8: brightness transcoding round-trips through percent.  With declared
maximum 254, decoding device value 254 yields 100 percent and encoding 100
percent yields 254 (exactly, hence within the claimed ±1 of rounding); with no
declared maximum both directions use 100 as the device-native maximum, so both
reduce to plain rounding of the value; and rounding is to the nearest integer
(`jsRound` never moves a value by more than 1/2). -/
theorem brightness_percent_roundtrip :
    BrightnessProperty.update (some 254) 254 = 100 ∧
    BrightnessProperty.sendValue (some 254) 100 = 254 ∧
    (∀ v : ℚ, BrightnessProperty.update none v = jsRound v ∧
      BrightnessProperty.sendValue none v = jsRound v) ∧
    (∀ v : ℚ, |(BrightnessProperty.update none v : ℚ) - v| ≤ 1/2) := by
  refine ⟨by norm_num [BrightnessProperty.update, jsRound],
          by norm_num [BrightnessProperty.sendValue, jsRound], ?_, ?_⟩
  · intro v
    exact ⟨by simp [BrightnessProperty.update], by simp [BrightnessProperty.sendValue]⟩
  · intro v
    have h : BrightnessProperty.update none v = jsRound v := by
      simp [BrightnessProperty.update]
    rw [h]
    exact jsRound_dist v

/-- `miredToKelvin` from the zigbee2mqtt property module:
`Math.round(1_000_000 / mired)`.  On a positive natural input the JavaScript
double computation agrees with exact rational arithmetic (the quotient is
never close enough to a half-integer for double rounding to matter unless it
is exactly representable), and `⌊10^6/m + 1/2⌋ = (2·10^6 + m) / (2m)` in
natural-number division. -/
def miredToKelvin (mired : ℕ) : ℕ := (2000000 + mired) / (2 * mired)

/-- `kelvinToMiredd` (sic) from the zigbee2mqtt property module:
`Math.round(1_000_000 / kelvin)`, the same reciprocal formula. -/
def kelvinToMiredd (kelvin : ℕ) : ℕ := (2000000 + kelvin) / (2 * kelvin)

theorem miredToKelvin_eq_jsRound (m : ℕ) (hm : 0 < m) :
    (miredToKelvin m : ℤ) = jsRound (1000000 / (m : ℚ)) := by
  have hm0 : (m : ℚ) ≠ 0 := by positivity
  have h : (1000000 : ℚ) / m + 1/2 = ((2000000 + m : ℕ) : ℚ) / ((2 * m : ℕ) : ℚ) := by
    push_cast
    field_simp
    ring
  simp only [jsRound]
  rw [h, Rat.floor_natCast_div_natCast]
  rfl

/-- C9 counterexample: the claim asserts the mired round-trip is within ±1 for
every positive mired in the device's declared range, but for a device whose
expose declares the mired range [1, 2000], the in-range value 1759 maps to
569 kelvin and back to 1757 mired, an error of 2. -/
theorem mired_roundtrip_counterexample :
    (1 : ℕ) ≤ 1759 ∧ (1759 : ℕ) ≤ 2000 ∧
    miredToKelvin 1759 = 569 ∧
    kelvinToMiredd (miredToKelvin 1759) = 1757 ∧
    ¬ Nat.dist (kelvinToMiredd (miredToKelvin 1759)) 1759 ≤ 1 := by
  refine ⟨by norm_num, by norm_num, by norm_num [miredToKelvin], ?_, ?_⟩
  · norm_num [miredToKelvin, kelvinToMiredd]
  · norm_num [miredToKelvin, kelvinToMiredd, Nat.dist]

/-- Boolean check that the mired round-trip error is at most 1 for every
`m` with `start < m ≤ start + n`; used to settle the round-trip bound by
evaluation over chunks of the range. -/
def mireddCheckFrom (start : ℕ) : ℕ → Bool
  | 0 => true
  | n + 1 =>
    Nat.ble (Nat.dist (kelvinToMiredd (miredToKelvin (start + n + 1))) (start + n + 1)) 1 &&
      mireddCheckFrom start n

theorem mireddCheckFrom_sound :
    ∀ (n s : ℕ), mireddCheckFrom s n = true →
      ∀ m, s < m → m ≤ s + n → Nat.dist (kelvinToMiredd (miredToKelvin m)) m ≤ 1 := by
  intro n
  induction n with
  | zero => intro s _ m h1 h2; omega
  | succ k ih =>
    intro s h m h1 h2
    simp only [mireddCheckFrom, Bool.and_eq_true] at h
    rcases h with ⟨h0, hrest⟩
    by_cases hm : m ≤ s + k
    · exact ih s hrest m h1 hm
    · have hmk : m = s + k + 1 := by omega
      subst hmk
      exact Nat.le_of_ble_eq_true h0

set_option maxRecDepth 4000 in
/-- C9 (amended): color-temperature transcoding uses `round(1,000,000/x)` in
both directions, `encode(370) = 2703` and `decode(2703) = 370`, and for every
mired value `m` with `1 ≤ m ≤ 1758` decoding then re-encoding returns a value
within ±1 of `m` (1758 is sharp: see the counterexample at 1759). -/
theorem mired_roundtrip_amended :
    miredToKelvin 370 = 2703 ∧
    kelvinToMiredd 2703 = 370 ∧
    ∀ m : ℕ, 1 ≤ m → m ≤ 1758 →
      Nat.dist (kelvinToMiredd (miredToKelvin m)) m ≤ 1 := by
  refine ⟨by norm_num [miredToKelvin], by norm_num [kelvinToMiredd], ?_⟩
  have c1 : mireddCheckFrom 0 300 = true := by decide
  have c2 : mireddCheckFrom 300 300 = true := by decide
  have c3 : mireddCheckFrom 600 300 = true := by decide
  have c4 : mireddCheckFrom 900 300 = true := by decide
  have c5 : mireddCheckFrom 1200 300 = true := by decide
  have c6 : mireddCheckFrom 1500 258 = true := by decide
  intro m h1 h2
  by_cases b1 : m ≤ 300
  · exact mireddCheckFrom_sound 300 0 c1 m (by omega) (by omega)
  by_cases b2 : m ≤ 600
  · exact mireddCheckFrom_sound 300 300 c2 m (by omega) (by omega)
  by_cases b3 : m ≤ 900
  · exact mireddCheckFrom_sound 300 600 c3 m (by omega) (by omega)
  by_cases b4 : m ≤ 1200
  · exact mireddCheckFrom_sound 300 900 c4 m (by omega) (by omega)
  by_cases b5 : m ≤ 1500
  · exact mireddCheckFrom_sound 300 1200 c5 m (by omega) (by omega)
  · exact mireddCheckFrom_sound 258 1500 c6 m (by omega) (by omega)

theorem mired_roundtrip_amended_witness :
    (1 : ℕ) ≤ 370 ∧ (370 : ℕ) ≤ 1758 ∧
      Nat.dist (kelvinToMiredd (miredToKelvin 370)) 370 ≤ 1 :=
  ⟨by norm_num, by norm_num,
    mired_roundtrip_amended.2.2 370 (by norm_num) (by norm_num)⟩

theorem runMode_mapping_witness :
    ("auto" ∉ (["idle", "heat", "cool"] : List String)) ∧
      ∃ e, convertHeatingCoolingValue "auto" = .error e :=
  ⟨by decide, runMode_mapping.2.2.2.1 "auto" (by decide)⟩

/-- Profile identifiers from `zb-constants.js` (not under the provided sources;
the numeric values are the standard Zigbee ones).  The source carries profile
ids both as numbers and as hex strings and `addProperty` normalizes strings
with `parseInt(·, 16)`; the embedding collapses that dance and carries the
numeric form throughout. -/
def PROFILE_ID_ZHA : ℕ := 0x0104

/-- The Zigbee light-link profile id (`PROFILE_ID.ZLL`). -/
def PROFILE_ID_ZLL : ℕ := 0xc05e

/-- A reporting configuration triple (`minRepInterval`, `maxRepInterval`,
`repChange`). -/
structure ConfigReport where
  minRepInterval : ℕ
  maxRepInterval : ℕ
  repChange : ℕ
deriving DecidableEq

/-- `CONFIG_REPORT_INTEGER` from the classifier source. -/
def CONFIG_REPORT_INTEGER : ConfigReport :=
  { minRepInterval := 1, maxRepInterval := 120, repChange := 1 }

/-- `CONFIG_REPORT_BATTERY` from the classifier source. -/
def CONFIG_REPORT_BATTERY : ConfigReport :=
  { minRepInterval := 600, maxRepInterval := 1800, repChange := 2 }

/-- A JavaScript property value as it appears on a classifier property:
boolean, number, string or null (an absent value is `Option.none` around
this type). -/
inductive PropValue where
  | bv (b : Bool)
  | nv (q : ℚ)
  | sv (s : String)
  | nullv
deriving DecidableEq

/-- Whether a `PropValue` is a number (`typeof v === 'number'`). -/
def PropValue.isNumber : PropValue → Bool
  | .nv _ => true
  | _ => false

/-- The property-description (schema) literal passed to `addProperty`. -/
structure PropDescr where
  atType : Option String := none
  label : String := ""
  typ : String := ""
  unit : Option String := none
  readOnly : Bool := false
  minimum : Option ℚ := none
  maximum : Option ℚ := none
  propEnum : Option (List String) := none
deriving DecidableEq

/-- A persisted per-property snapshot (`node.devInfoProperties[name]`),
consulted by `addProperty` for rehydration. -/
structure DevInfo where
  endpoint : ℕ
  profileId : ℕ
  clusterId : ℕ
  attr : String
  fireAndForget : Bool
  value : Option PropValue
  minimum : Option ℚ := none
  maximum : Option ℚ := none
  propEnum : Option (List String) := none
deriving DecidableEq

/-- The property model built by the factory.  The binding fields and schema
are stored by the `ZigbeeProperty` constructor (`zb-property.js`, outside the
provided sources; modelled from the spec's Property Model: fresh runtime flags
are unset/false and the schema comes from the description literal), and the
flag fields are then assigned by `addProperty` exactly as in the classifier
source. -/
structure ZbProperty where
  name : String
  profileId : ℕ
  endpoint : ℕ
  clusterId : ℕ
  attr : String
  setAttrFromValue : String := ""
  parseValueFromAttr : String := ""
  atType : Option String := none
  readOnly : Bool := false
  minimum : Option ℚ := none
  maximum : Option ℚ := none
  propEnum : Option (List String) := none
  fireAndForget : Bool := false
  configReportNeeded : Bool := false
  bindNeeded : Bool := false
  visible : Bool := true
  initialReadNeeded : Bool := false
  configReport : Option ConfigReport := none
  value : Option PropValue := none
  defaultValue : Option PropValue := none
  mask : Option ℕ := none
  buttonIndex : Option ℕ := none
deriving DecidableEq

/-- First half of `ZigbeeClassifier.addProperty` (up to and including the
line `property.configReportNeeded = false`): normalize a ZLL profile id to
ZHA, construct the property, rehydrate it from a matching persisted snapshot
and force `fireAndForget` when the original profile was ZLL ("attribute
reporting shall not be used in this profile"). -/
def addPropertyRehydrated (devInfo : Option DevInfo) (name : String) (descr : PropDescr)
    (profileId endpoint clusterId : ℕ) (attr setAttrFromValue parseValueFromAttr : String) :
    ZbProperty :=
  let isZll := profileId == PROFILE_ID_ZLL
  let profileId := if isZll then PROFILE_ID_ZHA else profileId
  let p : ZbProperty :=
    { name := name, profileId := profileId, endpoint := endpoint, clusterId := clusterId,
      attr := attr, setAttrFromValue := setAttrFromValue,
      parseValueFromAttr := parseValueFromAttr, atType := descr.atType,
      readOnly := descr.readOnly, minimum := descr.minimum, maximum := descr.maximum,
      propEnum := descr.propEnum }
  let p :=
    match devInfo with
    | none => p
    | some d =>
      if p.endpoint == d.endpoint && p.profileId == d.profileId &&
          p.clusterId == d.clusterId && p.attr == d.attr then
        let p := { p with fireAndForget := d.fireAndForget, value := d.value }
        let p := match d.minimum with | some m => { p with minimum := some m } | none => p
        let p := match d.maximum with | some m => { p with maximum := some m } | none => p
        match d.propEnum, p.propEnum with
        | some de, some pe => if pe.length == 0 then { p with propEnum := some de } else p
        | _, _ => p
      else p
  let p := if isZll then { p with fireAndForget := true } else p
  { p with configReportNeeded := false }

/-- `ZigbeeClassifier.addProperty`: the rehydrated property, then the
reporting requirement (a report config was supplied, the attribute path is
non-empty and the property is not already fire-and-forget — otherwise
`fireAndForget` is forced), visibility of underscore-prefixed names, the
initial read request and `bindNeeded := configReportNeeded`.  The visibility
test is the source's `name[0] == '_'`, written on the string's character
list. -/
def addProperty (devInfo : Option DevInfo) (name : String) (descr : PropDescr)
    (profileId endpoint clusterId : ℕ) (attr setAttrFromValue parseValueFromAttr : String)
    (configReport : Option ConfigReport := none) (defaultValue : Option PropValue := none) :
    ZbProperty :=
  let p := addPropertyRehydrated devInfo name descr profileId endpoint clusterId attr
    setAttrFromValue parseValueFromAttr
  let p :=
    if configReport.isSome && !(attr == "") && !p.fireAndForget then
      { p with configReportNeeded := true, configReport := configReport }
    else
      { p with fireAndForget := true }
  let p := if name.data.head? == some '_' then { p with visible := false } else p
  { p with
    initialReadNeeded := true
    defaultValue := defaultValue
    bindNeeded := p.configReportNeeded }

/-- An endpoint record of the capability descriptor (`node.activeEndpoints`
entries): profile id, device-type code and input/output cluster id sets
(cluster ids are carried as hex strings, as in the source). -/
structure Endpoint where
  profileId : ℕ
  deviceId : String
  inputClusters : List String
  outputClusters : List String
deriving DecidableEq

/-- Trailing step shared by the property adders: an undefined cached value
defaults to the given value (`if (typeof property.value === 'undefined')
property.value = v`). -/
def defaultValueStep (q : ZbProperty) (v : PropValue) : ZbProperty :=
  if q.value.isNone then { q with value := some v } else q

/-- Trailing step of `addButtonSceneProperty`: a non-numeric cached value
defaults to `0` (`if (typeof property.value !== 'number') property.value = 0`). -/
def sceneValueStep (q : ZbProperty) : ZbProperty :=
  match q.value with
  | some (.nv _) => q
  | _ => { q with value := some (.nv 0) }

/-- `ZigbeeClassifier.addOnProperty`: an `on`/`onN` switch property on the
`genOnOff` cluster with integer report config; an endpoint with device-type
code `000b` (ORVIBO relay) is then forced fire-and-forget, and an undefined
value defaults to `false`.  `endpoint` is `node.activeEndpoints[genOnOffEndpoint]`
and `devInfo` is the persisted snapshot for the property's name, if any. -/
def addOnProperty (devInfo : Option DevInfo) (endpoint : Endpoint)
    (genOnOffEndpoint : ℕ) (suffix : String) : ZbProperty :=
  let property := addProperty devInfo ("on" ++ suffix)
    { atType := some (if suffix ≠ "" then "BooleanProperty" else "OnOffProperty"),
      label := if suffix ≠ "" then "On/Off (" ++ suffix ++ ")" else "On/Off",
      typ := "boolean" }
    endpoint.profileId genOnOffEndpoint 0x0006 "onOff" "setOnOffValue" "parseOnOffAttr"
    (some CONFIG_REPORT_INTEGER) none
  let property :=
    if endpoint.deviceId == "000b" then { property with fireAndForget := true } else property
  defaultValueStep property (.bv false)

/-- `ZigbeeClassifier.addButtonOnProperty`: read-only boolean property bound
to a `genOnOff` output cluster with an empty attribute path; `bindNeeded` is
forced `true` after construction and an undefined value defaults to `false`. -/
def addButtonOnProperty (devInfo : Option DevInfo) (genOnOffOutputEndpoint : ℕ)
    (suffix : String) : ZbProperty :=
  let property := addProperty devInfo ("on" ++ suffix)
    { atType := some "BooleanProperty",
      label := if suffix ≠ "" then "On/Off (" ++ suffix ++ ")" else "On/Off",
      typ := "boolean", readOnly := true }
    PROFILE_ID_ZHA genOnOffOutputEndpoint 0x0006 "" "" "" none none
  let property := { property with bindNeeded := true }
  defaultValueStep property (.bv false)

/-- `ZigbeeClassifier.addButtonLevelProperty`: read-only level property bound
to a `genLevelCtrl` output cluster with an empty attribute path; `bindNeeded`
is forced `true` and an undefined value defaults to `0`. -/
def addButtonLevelProperty (devInfo : Option DevInfo) (genLevelCtrlOutputEndpoint : ℕ)
    (suffix : String) : ZbProperty :=
  let property := addProperty devInfo ("level" ++ suffix)
    { atType := some "LevelProperty",
      label := if suffix ≠ "" then "Level (" ++ suffix ++ ")" else "Level",
      typ := "number", unit := some "percent", minimum := some 0, maximum := some 100,
      readOnly := true }
    PROFILE_ID_ZHA genLevelCtrlOutputEndpoint 0x0008 "" "" "" none none
  let property := { property with bindNeeded := true }
  defaultValueStep property (.nv 0)

/-- `ZigbeeClassifier.addButtonSceneProperty`: read-only scene property bound
to a `genScenes` output cluster; `bindNeeded` is forced `false` and a
non-numeric value defaults to `0`. -/
def addButtonSceneProperty (devInfo : Option DevInfo) (genScenesOutputEndpoint : ℕ) :
    ZbProperty :=
  let property := addProperty devInfo "scene"
    { atType := some "LevelProperty", label := "Scene", typ := "integer",
      minimum := some 0, maximum := some 15, readOnly := true }
    PROFILE_ID_ZHA genScenesOutputEndpoint 0x0005 "" "" "" none none
  let property := { property with bindNeeded := false }
  sceneValueStep property

theorem addPropertyRehydrated_flags (devInfo : Option DevInfo) (name : String)
    (descr : PropDescr) (profileId endpoint clusterId : ℕ) (attr sa pa : String) :
    (addPropertyRehydrated devInfo name descr profileId endpoint clusterId attr sa pa).attr
        = attr ∧
    (addPropertyRehydrated devInfo name descr profileId endpoint clusterId attr sa
        pa).configReportNeeded = false := by
  simp only [addPropertyRehydrated]
  cases devInfo
  all_goals repeat' split
  all_goals first | exact ⟨rfl, rfl⟩ | exact ⟨trivial, rfl⟩ | simp_all

theorem addProperty_flag_invariant (devInfo : Option DevInfo) (name : String)
    (descr : PropDescr) (profileId endpoint clusterId : ℕ) (attr sa pa : String)
    (configReport : Option ConfigReport) (defaultValue : Option PropValue) :
    (addProperty devInfo name descr profileId endpoint clusterId attr sa pa configReport
        defaultValue).attr = attr ∧
    (addProperty devInfo name descr profileId endpoint clusterId attr sa pa configReport
        defaultValue).bindNeeded =
      (addProperty devInfo name descr profileId endpoint clusterId attr sa pa configReport
        defaultValue).configReportNeeded ∧
    ((addProperty devInfo name descr profileId endpoint clusterId attr sa pa configReport
        defaultValue).configReportNeeded = true →
      (addProperty devInfo name descr profileId endpoint clusterId attr sa pa configReport
        defaultValue).fireAndForget = false ∧ configReport.isSome = true ∧ attr ≠ "") := by
  obtain ⟨ha, hc⟩ :=
    addPropertyRehydrated_flags devInfo name descr profileId endpoint clusterId attr sa pa
  simp only [addProperty]
  split <;> split <;> simp_all

theorem addProperty_fireAndForget_attr (devInfo : Option DevInfo) (name : String)
    (descr : PropDescr) (profileId endpoint clusterId : ℕ) (attr sa pa : String)
    (configReport : Option ConfigReport) (defaultValue : Option PropValue) :
    (addProperty devInfo name descr profileId endpoint clusterId attr sa pa configReport
        defaultValue).fireAndForget = false → attr ≠ "" := by
  simp only [addProperty]
  split <;> split <;> simp_all

theorem defaultValueStep_configReportNeeded (q : ZbProperty) (v : PropValue) :
    (defaultValueStep q v).configReportNeeded = q.configReportNeeded := by
  simp only [defaultValueStep]
  split <;> rfl

theorem defaultValueStep_fireAndForget (q : ZbProperty) (v : PropValue) :
    (defaultValueStep q v).fireAndForget = q.fireAndForget := by
  simp only [defaultValueStep]
  split <;> rfl

theorem defaultValueStep_attr (q : ZbProperty) (v : PropValue) :
    (defaultValueStep q v).attr = q.attr := by
  simp only [defaultValueStep]
  split <;> rfl

theorem defaultValueStep_bindNeeded (q : ZbProperty) (v : PropValue) :
    (defaultValueStep q v).bindNeeded = q.bindNeeded := by
  simp only [defaultValueStep]
  split <;> rfl

theorem sceneValueStep_configReportNeeded (q : ZbProperty) :
    (sceneValueStep q).configReportNeeded = q.configReportNeeded := by
  simp only [sceneValueStep]
  split <;> rfl

theorem sceneValueStep_bindNeeded (q : ZbProperty) :
    (sceneValueStep q).bindNeeded = q.bindNeeded := by
  simp only [sceneValueStep]
  split <;> rfl

/-- C2 counterexample: for an endpoint with device-type code `000b` (the
ORVIBO relay special case), `addOnProperty` forces `fireAndForget = true`
after `addProperty` has already set `configReportNeeded = true`, so the
resulting property carries both flags at once — the claimed invariant fails
exactly there. -/
theorem orvibo_onProperty_counterexample :
    (addOnProperty none
        { profileId := 0x0104, deviceId := "000b", inputClusters := ["0006"],
          outputClusters := [] } 1 "").fireAndForget = true ∧
    (addOnProperty none
        { profileId := 0x0104, deviceId := "000b", inputClusters := ["0006"],
          outputClusters := [] } 1 "").configReportNeeded = true := by
  exact ⟨rfl, rfl⟩

/-- C2 (amended): for every property constructed by `addProperty`,
`configReportNeeded = true` implies `fireAndForget = false` and
`fireAndForget = false` implies a non-empty attribute path; the same holds
for properties built by `addOnProperty` for every endpoint whose device-type
code is not `000b` (the `000b` special case violates the invariant, see the
counterexample). -/
theorem addProperty_report_invariant :
    (∀ (devInfo : Option DevInfo) (name : String) (descr : PropDescr)
        (profileId endpoint clusterId : ℕ) (attr sa pa : String)
        (configReport : Option ConfigReport) (defaultValue : Option PropValue),
      ((addProperty devInfo name descr profileId endpoint clusterId attr sa pa configReport
          defaultValue).configReportNeeded = true →
        (addProperty devInfo name descr profileId endpoint clusterId attr sa pa configReport
          defaultValue).fireAndForget = false) ∧
      ((addProperty devInfo name descr profileId endpoint clusterId attr sa pa configReport
          defaultValue).fireAndForget = false →
        (addProperty devInfo name descr profileId endpoint clusterId attr sa pa configReport
          defaultValue).attr ≠ "")) ∧
    (∀ (devInfo : Option DevInfo) (ep : Endpoint) (epNum : ℕ) (suffix : String),
      ep.deviceId ≠ "000b" →
      ((addOnProperty devInfo ep epNum suffix).configReportNeeded = true →
        (addOnProperty devInfo ep epNum suffix).fireAndForget = false) ∧
      ((addOnProperty devInfo ep epNum suffix).fireAndForget = false →
        (addOnProperty devInfo ep epNum suffix).attr ≠ "")) := by
  constructor
  · intro devInfo name descr profileId endpoint clusterId attr sa pa configReport defaultValue
    obtain ⟨ha, _, hinv⟩ := addProperty_flag_invariant devInfo name descr profileId endpoint
      clusterId attr sa pa configReport defaultValue
    refine ⟨fun h => (hinv h).1, fun h => ?_⟩
    rw [ha]
    exact addProperty_fireAndForget_attr devInfo name descr profileId endpoint clusterId
      attr sa pa configReport defaultValue h
  · intro devInfo ep epNum suffix h000b
    obtain ⟨ha, _, hinv⟩ := addProperty_flag_invariant devInfo ("on" ++ suffix)
      { atType := some (if suffix ≠ "" then "BooleanProperty" else "OnOffProperty"),
        label := if suffix ≠ "" then "On/Off (" ++ suffix ++ ")" else "On/Off",
        typ := "boolean" }
      ep.profileId epNum 0x0006 "onOff" "setOnOffValue" "parseOnOffAttr"
      (some CONFIG_REPORT_INTEGER) none
    have hbeq : (ep.deviceId == "000b") = false := by
      simp [h000b]
    simp only [addOnProperty, hbeq, Bool.false_eq_true, if_false,
      defaultValueStep_configReportNeeded, defaultValueStep_fireAndForget,
      defaultValueStep_attr]
    refine ⟨fun h => (hinv h).1, fun _ => ?_⟩
    rw [ha]
    decide

theorem addProperty_report_invariant_witness :
    ({ profileId := 0x0104, deviceId := "0100", inputClusters := ["0006"],
        outputClusters := [] } : Endpoint).deviceId ≠ "000b" ∧
    ((addOnProperty none
        { profileId := 0x0104, deviceId := "0100", inputClusters := ["0006"],
          outputClusters := [] } 1 "").configReportNeeded = true →
      (addOnProperty none
        { profileId := 0x0104, deviceId := "0100", inputClusters := ["0006"],
          outputClusters := [] } 1 "").fireAndForget = false) :=
  ⟨by decide,
    (addProperty_report_invariant.2 none
      { profileId := 0x0104, deviceId := "0100", inputClusters := ["0006"],
        outputClusters := [] } 1 "" (by decide)).1⟩

/-- C6 counterexample: the read-only button on/off property forces
`bindNeeded = true` after construction while `configReportNeeded` stays
`false` (its attribute path is empty and no report config is supplied), so
`bindNeeded` differs from `configReportNeeded` there. -/
theorem buttonOn_bindNeeded_counterexample :
    (addButtonOnProperty none 1 "").bindNeeded = true ∧
    (addButtonOnProperty none 1 "").configReportNeeded = false ∧
    (addButtonOnProperty none 1 "").bindNeeded ≠
      (addButtonOnProperty none 1 "").configReportNeeded := by
  refine ⟨rfl, rfl, by decide⟩

/-- C6 (amended): `bindNeeded` equals `configReportNeeded` for every property
as constructed by `addProperty`, and for the read-only scene button property
(whose override to `false` coincides with `configReportNeeded`); the read-only
on/off and level button properties override `bindNeeded` to `true` while their
`configReportNeeded` is `false`, so the equality does not extend to them. -/
theorem bindNeeded_eq_configReportNeeded_amended :
    (∀ (devInfo : Option DevInfo) (name : String) (descr : PropDescr)
        (profileId endpoint clusterId : ℕ) (attr sa pa : String)
        (configReport : Option ConfigReport) (defaultValue : Option PropValue),
      (addProperty devInfo name descr profileId endpoint clusterId attr sa pa configReport
        defaultValue).bindNeeded =
      (addProperty devInfo name descr profileId endpoint clusterId attr sa pa configReport
        defaultValue).configReportNeeded) ∧
    (∀ (devInfo : Option DevInfo) (epNum : ℕ),
      (addButtonSceneProperty devInfo epNum).bindNeeded =
        (addButtonSceneProperty devInfo epNum).configReportNeeded) ∧
    (∀ (devInfo : Option DevInfo) (epNum : ℕ) (suffix : String),
      (addButtonOnProperty devInfo epNum suffix).bindNeeded = true ∧
      (addButtonOnProperty devInfo epNum suffix).configReportNeeded = false) ∧
    (∀ (devInfo : Option DevInfo) (epNum : ℕ) (suffix : String),
      (addButtonLevelProperty devInfo epNum suffix).bindNeeded = true ∧
      (addButtonLevelProperty devInfo epNum suffix).configReportNeeded = false) := by
  have hnone : ∀ (devInfo : Option DevInfo) (name : String) (descr : PropDescr)
      (profileId endpoint clusterId : ℕ) (sa pa : String),
      (addProperty devInfo name descr profileId endpoint clusterId "" sa pa none
        none).configReportNeeded = false := by
    intro devInfo name descr profileId endpoint clusterId sa pa
    obtain ⟨_, _, hinv⟩ := addProperty_flag_invariant devInfo name descr profileId endpoint
      clusterId "" sa pa none none
    cases hcr : (addProperty devInfo name descr profileId endpoint clusterId "" sa pa none
        none).configReportNeeded
    · rfl
    · exact absurd rfl (hinv hcr).2.2
  refine ⟨?_, ?_, ?_, ?_⟩
  · intro devInfo name descr profileId endpoint clusterId attr sa pa configReport defaultValue
    exact (addProperty_flag_invariant devInfo name descr profileId endpoint clusterId attr
      sa pa configReport defaultValue).2.1
  · intro devInfo epNum
    simp only [addButtonSceneProperty, sceneValueStep_bindNeeded,
      sceneValueStep_configReportNeeded]
    exact (hnone devInfo "scene" _ PROFILE_ID_ZHA epNum 0x0005 "" "").symm
  · intro devInfo epNum suffix
    simp only [addButtonOnProperty, defaultValueStep_bindNeeded,
      defaultValueStep_configReportNeeded]
    exact ⟨trivial, hnone devInfo ("on" ++ suffix) _ PROFILE_ID_ZHA epNum 0x0006 "" ""⟩
  · intro devInfo epNum suffix
    simp only [addButtonLevelProperty, defaultValueStep_bindNeeded,
      defaultValueStep_configReportNeeded]
    exact ⟨trivial, hnone devInfo ("level" ++ suffix) _ PROFILE_ID_ZHA epNum 0x0008 "" ""⟩

/-- The capability descriptor of a discovered node as consumed by the
classifier: model id, endpoint table, optional zone-type code, optional
color-capability bitmask, the cached color-control endpoint, the raw
power-source field, and the power classification.  `isMainsPowered` and
`isBatteryPowered` live in `zb-node.js` (not under the provided sources) and
are modelled from the spec's power-source classification (mains / battery /
unknown) as two flags. -/
structure ZNode where
  modelId : String
  activeEndpoints : List (ℕ × Endpoint) := []
  zoneType : Option ℕ := none
  colorCapabilities : Option ℕ := none
  lightingColorCtrlEndpoint : Option ℕ := none
  powerSource : ℕ := 0
  mainsPowered : Bool := false
  batteryPowered : Bool := false
deriving DecidableEq

/-- Cluster ids (hex-string form) from `zb-constants.js`, which is not under
the provided sources; the values are the standard Zigbee cluster ids, and
only their distinctness matters to the proofs. -/
def GENPOWERCFG_HEX : String := "0001"

def GENDEVICETEMPCFG_HEX : String := "0002"

def GENSCENES_HEX : String := "0005"

def GENONOFF_HEX : String := "0006"

def GENLEVELCTRL_HEX : String := "0008"

def GENBINARYINPUT_HEX : String := "000f"

def DOORLOCK_HEX : String := "0101"

def HVACTHERMOSTAT_HEX : String := "0201"

def HVACFANCTRL_HEX : String := "0202"

def HVACUSERINTERFACECFG_HEX : String := "0204"

def ILLUMINANCE_MEASUREMENT_HEX : String := "0400"

def TEMPERATURE_HEX : String := "0402"

def OCCUPANCY_SENSOR_HEX : String := "0406"

def SSIASZONE_HEX : String := "0500"

def SEMETERING_HEX : String := "0702"

def HAELECTRICAL_HEX : String := "0b04"

def LIGHTLINK_HEX : String := "1000"

/-- Modelled from the spec: `findZhaEndpointsWithInputClusterIdHex` lives in
the node implementation (`zb-node.js`, not under the provided sources).  The
spec's Capability Descriptor is an endpoint table mapping endpoint numbers to
input/output cluster sets; the finder returns the endpoint numbers whose
input cluster set contains the given cluster id. -/
def findZhaEndpointsWithInputClusterIdHex (n : ZNode) (clusterIdHex : String) : List ℕ :=
  (n.activeEndpoints.filter (fun e => e.2.inputClusters.contains clusterIdHex)).map (·.1)

/-- Modelled from the spec: the single-endpoint variant returns the first
matching endpoint number, or nothing. -/
def findZhaEndpointWithInputClusterIdHex (n : ZNode) (clusterIdHex : String) : Option ℕ :=
  (findZhaEndpointsWithInputClusterIdHex n clusterIdHex).head?

/-- Modelled from the spec: the output-cluster finder (which, despite its
singular name in the source, returns the whole list and is consumed with
`.length` and indexing). -/
def findZhaEndpointWithOutputClusterIdHex (n : ZNode) (clusterIdHex : String) : List ℕ :=
  (n.activeEndpoints.filter (fun e => e.2.outputClusters.contains clusterIdHex)).map (·.1)

/-- Lookup of `node.activeEndpoints[num]`. -/
def nodeEndpoint (n : ZNode) (num : ℕ) : Option Endpoint :=
  n.activeEndpoints.lookup num

/-- The `hasBattery` model-identifier exception list of
`addPowerCfgVoltageProperty` (devices that report an unknown power source but
are battery powered). -/
def hasBattery : List String := ["1116-S", "motionv4", "motionv5", "multiv4", "tagv4"]

/-- The `batteryVoltage` guard of `addPowerCfgVoltageProperty`, exactly as
the source computes it: `node.isBatteryPowered() || node.powerSource &
(0x80 !== 0) || hasBattery.includes(node.modelId)`.  JavaScript evaluates
`0x80 !== 0` to `true` and the bitwise AND coerces that boolean to `1`, so
the middle operand tests bit 0 — not bit 7 — of the power-source field. -/
def batteryVoltageGuard (n : ZNode) : Bool :=
  n.batteryPowered ||
    ((n.powerSource &&& (if (0x80 : ℕ) ≠ 0 then 1 else 0)) != 0) ||
    hasBattery.contains n.modelId

/-- `ZigbeeClassifier.addPowerCfgVoltageProperty`, abstracted to the names of
the properties it adds on the `genPowerCfg` endpoint: `mainsVoltage` when
mains powered, `batteryVoltage` under `batteryVoltageGuard`, and
`batteryPercentageRemaining` when battery powered. -/
def addPowerCfgVoltageProperty (n : ZNode) : List String :=
  (if n.mainsPowered then ["mainsVoltage"] else []) ++
  (if batteryVoltageGuard n then ["batteryVoltage"] else []) ++
  (if n.batteryPowered then ["batteryPercentageRemaining"] else [])

/-- C5 (code bug): the source's own comment says "Bit 7 indicates the backup
power source", but the guard `node.powerSource & (0x80 !== 0)` tests bit 0
(operator precedence makes `0x80 !== 0` a boolean coerced to `1`).  For a
node with power-source field `0x80` (battery-backup bit set), not battery
powered and no model-id exception, the code omits the `batteryVoltage`
property the claim requires; conversely a node with bit 0 set gets the
property although no battery indication is present.  The
`batteryPercentageRemaining` half of the claim does hold. -/
theorem batteryVoltage_bit_test_bug :
    ((({ modelId := "someModel", powerSource := 0x80 } : ZNode).powerSource &&& 0x80)
        = 0x80) ∧
    ({ modelId := "someModel", powerSource := 0x80 } : ZNode).batteryPowered = false ∧
    hasBattery.contains "someModel" = false ∧
    "batteryVoltage" ∉
      addPowerCfgVoltageProperty { modelId := "someModel", powerSource := 0x80 } ∧
    ((({ modelId := "someModel", powerSource := 0x01 } : ZNode).powerSource &&& 0x80)
        = 0) ∧
    "batteryVoltage" ∈
      addPowerCfgVoltageProperty { modelId := "someModel", powerSource := 0x01 } ∧
    (∀ n : ZNode,
      "batteryPercentageRemaining" ∈ addPowerCfgVoltageProperty n ↔
        n.batteryPowered = true) := by
  refine ⟨by decide, by decide, by decide, by decide, by decide, by decide, ?_⟩
  intro n
  cases hm : n.mainsPowered <;> cases hg : batteryVoltageGuard n <;>
    cases hb : n.batteryPowered <;>
    simp [addPowerCfgVoltageProperty, hm, hg, hb]

/-- The rule of the classifier's ordered decision list that fires for a
node; mirrors the if/else-if chain of `classifyInternal`. -/
inductive ClassifyRule where
  | zone
  | occupancy
  | thermostat
  | meteredDimmer
  | haPlug
  | sePlug
  | levelCtrl
  | onOffSwitch
  | multiButtons
  | onOffButtons
  | doorLock
  | binaryInput
  | noRule
deriving DecidableEq

/-- The dispatch of `ZigbeeClassifier.classifyInternal`: which `init*` routine
the first-match-wins chain invokes.  `isLight` abstracts
`ZHA_DEVICE_ID.isLight` from `zb-constants.js` (not under the provided
sources): the device-type-code light predicate. -/
def classifyRule (isLight : String → Bool) (n : ZNode) : ClassifyRule :=
  let seMeteringEndpoint := findZhaEndpointWithInputClusterIdHex n SEMETERING_HEX
  let haElectricalEndpoint := findZhaEndpointWithInputClusterIdHex n HAELECTRICAL_HEX
  let isZhaLight :=
    match seMeteringEndpoint with
    | some e =>
      match nodeEndpoint n e with
      | some ep => isLight ep.deviceId
      | none => false
    | none => false
  let isZhaLight :=
    if isZhaLight then isZhaLight
    else
      match haElectricalEndpoint with
      | some e =>
        match nodeEndpoint n e with
        | some ep => isLight ep.deviceId
        | none => false
      | none => false
  let genBinaryInputEndpoint := findZhaEndpointWithInputClusterIdHex n GENBINARYINPUT_HEX
  let genLevelCtrlEndpoint := findZhaEndpointWithInputClusterIdHex n GENLEVELCTRL_HEX
  let genLevelCtrlOutputEndpoints := findZhaEndpointWithOutputClusterIdHex n GENLEVELCTRL_HEX
  let genOnOffEndpoints := findZhaEndpointsWithInputClusterIdHex n GENONOFF_HEX
  let genOnOffOutputEndpoints := findZhaEndpointWithOutputClusterIdHex n GENONOFF_HEX
  let doorLockEndpoint := findZhaEndpointWithInputClusterIdHex n DOORLOCK_HEX
  let msOccupancySensingEndpoint :=
    findZhaEndpointWithInputClusterIdHex n OCCUPANCY_SENSOR_HEX
  let hvacThermostatEndpoint := findZhaEndpointWithInputClusterIdHex n HVACTHERMOSTAT_HEX
  let lightLinkEndpoint := findZhaEndpointWithInputClusterIdHex n LIGHTLINK_HEX
  if n.zoneType.isSome then .zone
  else if msOccupancySensingEndpoint.isSome then .occupancy
  else if hvacThermostatEndpoint.isSome then .thermostat
  else if seMeteringEndpoint.isSome && genLevelCtrlEndpoint.isSome then .meteredDimmer
  else if haElectricalEndpoint.isSome && lightLinkEndpoint.isNone &&
      n.lightingColorCtrlEndpoint.isNone && !isZhaLight then .haPlug
  else if seMeteringEndpoint.isSome && lightLinkEndpoint.isNone &&
      n.lightingColorCtrlEndpoint.isNone && !isZhaLight then .sePlug
  else if genLevelCtrlEndpoint.isSome then .levelCtrl
  else if !genOnOffEndpoints.isEmpty then .onOffSwitch
  else if !genLevelCtrlOutputEndpoints.isEmpty && !genOnOffOutputEndpoints.isEmpty then
    .multiButtons
  else if !genOnOffOutputEndpoints.isEmpty then .onOffButtons
  else if doorLockEndpoint.isSome then .doorLock
  else if genBinaryInputEndpoint.isSome then .binaryInput
  else .noRule

/-- The property names added by `addThermostatProperties`, in source order;
`units` only with an `hvacUserInterfaceCfg` endpoint, the fan properties only
with an `hvacFanControl` endpoint. -/
def thermostatPropertyNames (hasFanControl hasUiCfg : Bool) : List String :=
  ["temperature", "mode", "runMode", "_deadband", "_absMaxHeatTarget", "_absMinHeatTarget",
    "_maxHeatTarget", "_minHeatTarget", "heatTarget", "_absMaxCoolTarget",
    "_absMinCoolTarget", "_maxCoolTarget", "_minCoolTarget", "coolTarget", "hold"] ++
  (if hasUiCfg then ["units"] else []) ++
  (if hasFanControl then ["_fanModeSeq", "fanMode"] else [])

/-- `ZigbeeClassifier.initThermostat`: device type `thermostat`, type tags
`['Thermostat']`, and the thermostat property set. -/
def initThermostat (n : ZNode) : String × List String × List String :=
  ("thermostat", ["Thermostat"],
    thermostatPropertyNames
      (findZhaEndpointWithInputClusterIdHex n HVACFANCTRL_HEX).isSome
      (findZhaEndpointWithInputClusterIdHex n HVACUSERINTERFACECFG_HEX).isSome)

/-- C1: for a capability descriptor with no zone-type code and no
occupancy-sensing, metering or electrical-measurement endpoint whose endpoint
table contains both an `hvacThermostat` and a `genLevelCtrl` input cluster,
the first-match-wins decision list fires the thermostat rule — not the
level-control rule, which is never evaluated — and `initThermostat` assigns
device type `thermostat` with the thermostat property set (including the
`heatTarget` and `coolTarget` targets). -/
theorem classify_thermostat_first_match (isLight : String → Bool) (n : ZNode)
    (hzone : n.zoneType = none)
    (hocc : findZhaEndpointWithInputClusterIdHex n OCCUPANCY_SENSOR_HEX = none)
    (hmeter : findZhaEndpointWithInputClusterIdHex n SEMETERING_HEX = none)
    (hha : findZhaEndpointWithInputClusterIdHex n HAELECTRICAL_HEX = none)
    (htherm : (findZhaEndpointWithInputClusterIdHex n HVACTHERMOSTAT_HEX).isSome = true)
    (hlevel : (findZhaEndpointWithInputClusterIdHex n GENLEVELCTRL_HEX).isSome = true) :
    classifyRule isLight n = ClassifyRule.thermostat ∧
    ClassifyRule.thermostat ≠ ClassifyRule.levelCtrl ∧
    (initThermostat n).1 = "thermostat" ∧
    (initThermostat n).2.1 = ["Thermostat"] ∧
    "heatTarget" ∈ (initThermostat n).2.2 ∧
    "coolTarget" ∈ (initThermostat n).2.2 := by
  refine ⟨?_, by decide, rfl, rfl, ?_, ?_⟩
  · simp [classifyRule, hzone, hocc, htherm]
  · simp [initThermostat, thermostatPropertyNames]
  · simp [initThermostat, thermostatPropertyNames]

/-- A concrete two-cluster thermostat node used to instantiate the
first-match theorem. -/
def thermostatNode : ZNode :=
  { modelId := "therm1",
    activeEndpoints :=
      [(1, { profileId := 0x0104, deviceId := "0301",
             inputClusters := [HVACTHERMOSTAT_HEX, GENLEVELCTRL_HEX],
             outputClusters := [] })] }

theorem classify_thermostat_first_match_witness :
    classifyRule (fun _ => false) thermostatNode = ClassifyRule.thermostat :=
  (classify_thermostat_first_match (fun _ => false) thermostatNode (by decide) (by decide)
    (by decide) (by decide) (by decide) (by decide)).1

/-- A JavaScript value held in a thermostat property's `value` slot: `null`
or a number.  `Option` around this type models `hasOwnProperty('value')`. -/
inductive JVal where
  | jsNull
  | jsNum (q : ℚ)
deriving DecidableEq

/-- JavaScript numeric coercion as applied by arithmetic and `Math.min/max`:
`null` coerces to `0`. -/
def JVal.toQ : JVal → ℚ
  | .jsNull => 0
  | .jsNum q => q

/-- One numeric property of the thermostat constraint subgraph: cached value
and published bounds. -/
structure TProp where
  value : Option JVal := none
  minimum : Option JVal := none
  maximum : Option JVal := none
deriving DecidableEq

/-- Modelled from the spec: `setMinimum` lives in `zb-property.js` (not under
the provided sources); per the spec it publishes the new lower bound on the
property (clamping of the cached value and the change notification are
outside this model). -/
def TProp.setMinimum (p : TProp) (v : JVal) : TProp := { p with minimum := some v }

/-- Modelled from the spec: `setMaximum`, symmetric to `setMinimum`. -/
def TProp.setMaximum (p : TProp) (v : JVal) : TProp := { p with maximum := some v }

/-- The eleven numeric properties wired by `addThermostatProperties` into the
constraint subgraph; field names follow the source's local variables. -/
structure ThermostatGraph where
  deadbandProperty : TProp := {}
  absMaxHeatTargetProperty : TProp := {}
  absMinHeatTargetProperty : TProp := {}
  maxHeatTargetProperty : TProp := {}
  minHeatTargetProperty : TProp := {}
  heatTargetProperty : TProp := {}
  absMaxCoolTargetProperty : TProp := {}
  absMinCoolTargetProperty : TProp := {}
  maxCoolTargetProperty : TProp := {}
  minCoolTargetProperty : TProp := {}
  coolTargetProperty : TProp := {}
deriving DecidableEq

/-- `heatTargetProperty.updateMaximum` (source lines 1545-1571): no user
max-heat value — return; no cool target *and* no deadband (or both null) —
publish the user max-heat bound alone; exactly one of them missing — return;
otherwise publish `min(maxHeatTarget, coolTarget − deadband)` (JavaScript
`Math.min` and subtraction coerce a null operand to 0, hence `toQ`). -/
def updateMaximum (s : ThermostatGraph) : ThermostatGraph :=
  match s.maxHeatTargetProperty.value with
  | none => s
  | some mh =>
    if (s.deadbandProperty.value = none ∧ s.coolTargetProperty.value = none) ∨
        (s.deadbandProperty.value = some .jsNull ∧
          s.coolTargetProperty.value = some .jsNull) then
      { s with heatTargetProperty := s.heatTargetProperty.setMaximum mh }
    else if s.deadbandProperty.value = none ∨ s.coolTargetProperty.value = none then s
    else
      let max1 := mh.toQ
      let max2 := (s.coolTargetProperty.value.getD (.jsNum 0)).toQ -
        (s.deadbandProperty.value.getD (.jsNum 0)).toQ
      { s with heatTargetProperty := s.heatTargetProperty.setMaximum (.jsNum (min max1 max2)) }

/-- `coolTargetProperty.updateMinimum` (source lines 1595-1621), symmetric:
publishes `max(minCoolTarget, heatTarget + deadband)` when all operands are
known. -/
def updateMinimum (s : ThermostatGraph) : ThermostatGraph :=
  match s.minCoolTargetProperty.value with
  | none => s
  | some mc =>
    if (s.deadbandProperty.value = none ∧ s.heatTargetProperty.value = none) ∨
        (s.deadbandProperty.value = some .jsNull ∧
          s.heatTargetProperty.value = some .jsNull) then
      { s with coolTargetProperty := s.coolTargetProperty.setMinimum mc }
    else if s.deadbandProperty.value = none ∨ s.heatTargetProperty.value = none then s
    else
      let min1 := mc.toQ
      let min2 := (s.heatTargetProperty.value.getD (.jsNum 0)).toQ +
        (s.deadbandProperty.value.getD (.jsNum 0)).toQ
      { s with coolTargetProperty := s.coolTargetProperty.setMinimum (.jsNum (max min1 min2)) }

/-- Modelled from the spec: applying an update sets the cached value and
synchronously fires the property's `updated` hook.  This is the heat-target
path: the hook (source lines 1539-1543) pushes the new value into
`maxHeatTarget.setMinimum`, `minHeatTarget.setMaximum` and re-runs
`coolTargetProperty.updateMinimum`. -/
def setHeatTargetValue (s : ThermostatGraph) (q : ℚ) : ThermostatGraph :=
  let s :=
    { s with heatTargetProperty := { s.heatTargetProperty with value := some (.jsNum q) } }
  let s := { s with maxHeatTargetProperty := s.maxHeatTargetProperty.setMinimum (.jsNum q) }
  let s := { s with minHeatTargetProperty := s.minHeatTargetProperty.setMaximum (.jsNum q) }
  updateMinimum s

/-- The cool-target update path: the `updated` hook (source lines 1589-1593)
pushes the new value into `maxCoolTarget.setMinimum`,
`minCoolTarget.setMaximum` and re-runs `heatTargetProperty.updateMaximum`. -/
def setCoolTargetValue (s : ThermostatGraph) (q : ℚ) : ThermostatGraph :=
  let s :=
    { s with coolTargetProperty := { s.coolTargetProperty with value := some (.jsNum q) } }
  let s := { s with maxCoolTargetProperty := s.maxCoolTargetProperty.setMinimum (.jsNum q) }
  let s := { s with minCoolTargetProperty := s.minCoolTargetProperty.setMaximum (.jsNum q) }
  updateMaximum s

/-- The deadband update path: its `updated` hook (source lines 1631-1634)
re-runs `heatTargetProperty.updateMaximum` then
`coolTargetProperty.updateMinimum`. -/
def setDeadbandValue (s : ThermostatGraph) (q : ℚ) : ThermostatGraph :=
  let s :=
    { s with deadbandProperty := { s.deadbandProperty with value := some (.jsNum q) } }
  updateMinimum (updateMaximum s)

/-- The C3 scenario: absolute and user heat limits [10, 30], cool limits
[15, 35], deadband 2, all target values known. -/
def thermostatScenario : ThermostatGraph :=
  { deadbandProperty := { value := some (.jsNum 2) }
    absMaxHeatTargetProperty := { value := some (.jsNum 30) }
    absMinHeatTargetProperty := { value := some (.jsNum 10) }
    maxHeatTargetProperty := { value := some (.jsNum 30) }
    minHeatTargetProperty := { value := some (.jsNum 10) }
    heatTargetProperty := { value := some (.jsNum 18) }
    absMaxCoolTargetProperty := { value := some (.jsNum 35) }
    absMinCoolTargetProperty := { value := some (.jsNum 15) }
    maxCoolTargetProperty := { value := some (.jsNum 35) }
    minCoolTargetProperty := { value := some (.jsNum 15) }
    coolTargetProperty := { value := some (.jsNum 26) } }

/-- The scenario state after the first update (heat target set to 20). -/
def thermostatScenario1 : ThermostatGraph := setHeatTargetValue thermostatScenario 20

/-- The scenario state after the second update (cool target set to 25). -/
def thermostatScenario2 : ThermostatGraph := setCoolTargetValue thermostatScenario1 25

/-- C3: on the scenario thermostat, setting the heat target to 20 publishes
cool-target minimum 22 (≥ 22), and then setting the cool target to 25
publishes heat-target maximum 23 (≤ 23); in general, whenever all operands
are known numbers, the recomputations publish
`heatTarget.maximum = min(userMaxHeat, coolTarget − deadband)` and
`coolTarget.minimum = max(userMinCool, heatTarget + deadband)`. -/
theorem thermostat_constraint_propagation :
    (thermostatScenario1.coolTargetProperty.minimum = some (.jsNum 22)) ∧
    (thermostatScenario2.heatTargetProperty.maximum = some (.jsNum 23)) ∧
    (∀ (s : ThermostatGraph) (mh c d : ℚ),
      s.maxHeatTargetProperty.value = some (.jsNum mh) →
      s.coolTargetProperty.value = some (.jsNum c) →
      s.deadbandProperty.value = some (.jsNum d) →
      (updateMaximum s).heatTargetProperty.maximum = some (.jsNum (min mh (c - d)))) ∧
    (∀ (s : ThermostatGraph) (mc h d : ℚ),
      s.minCoolTargetProperty.value = some (.jsNum mc) →
      s.heatTargetProperty.value = some (.jsNum h) →
      s.deadbandProperty.value = some (.jsNum d) →
      (updateMinimum s).coolTargetProperty.minimum = some (.jsNum (max mc (h + d)))) := by
  refine ⟨?_, ?_, ?_, ?_⟩
  · simp [thermostatScenario1, thermostatScenario, setHeatTargetValue, updateMinimum,
      TProp.setMinimum, TProp.setMaximum, JVal.toQ]
    try norm_num
  · simp [thermostatScenario2, thermostatScenario1, thermostatScenario,
      setHeatTargetValue, setCoolTargetValue, updateMinimum, updateMaximum,
      TProp.setMinimum, TProp.setMaximum, JVal.toQ]
    try norm_num
  · intro s mh c d h1 h2 h3
    simp [updateMaximum, h1, h2, h3, TProp.setMaximum, JVal.toQ]
  · intro s mc h d h1 h2 h3
    simp [updateMinimum, h1, h2, h3, TProp.setMinimum, JVal.toQ]

theorem thermostat_constraint_propagation_witness :
    (updateMaximum thermostatScenario).heatTargetProperty.maximum
      = some (.jsNum (min 30 (26 - 2))) :=
  thermostat_constraint_propagation.2.2.1 thermostatScenario 30 26 2 rfl rfl rfl

/-- A thermostat state in which only the user max-heat bound is known. -/
def deferralState : ThermostatGraph :=
  { maxHeatTargetProperty := { value := some (.jsNum 30) } }

/-- C4 counterexample: with the user max-heat bound known (30) but *both* the
cool target and the deadband unknown, the recomputation does not defer — it
publishes the bound 30 — although the claim says an unknown operand always
leaves the maximum unchanged. -/
theorem updateMaximum_publishes_without_operands :
    deferralState.deadbandProperty.value = none ∧
    deferralState.coolTargetProperty.value = none ∧
    deferralState.heatTargetProperty.maximum = none ∧
    (updateMaximum deferralState).heatTargetProperty.maximum = some (.jsNum 30) := by
  refine ⟨rfl, rfl, rfl, ?_⟩
  norm_num [deferralState, updateMaximum, TProp.setMaximum]

/-- C4 (amended): the recomputation defers (the state is unchanged) when the
user max-heat bound is unknown, or when exactly one of the cool target and
the deadband is unknown; when *both* are unknown it publishes the user
max-heat bound alone; symmetrically for the cool target's minimum; and the
deadband's `updated` hook re-triggers both recomputations, which then publish
the deadband-constrained bounds once every operand is known. -/
theorem updateMaximum_deferral_amended (s : ThermostatGraph) :
    (s.maxHeatTargetProperty.value = none → updateMaximum s = s) ∧
    (∀ v, s.maxHeatTargetProperty.value = some v →
      s.deadbandProperty.value = none → s.coolTargetProperty.value ≠ none →
      updateMaximum s = s) ∧
    (∀ v, s.maxHeatTargetProperty.value = some v →
      s.deadbandProperty.value ≠ none → s.coolTargetProperty.value = none →
      updateMaximum s = s) ∧
    (∀ mh, s.maxHeatTargetProperty.value = some (.jsNum mh) →
      s.deadbandProperty.value = none → s.coolTargetProperty.value = none →
      (updateMaximum s).heatTargetProperty.maximum = some (.jsNum mh)) ∧
    (s.minCoolTargetProperty.value = none → updateMinimum s = s) ∧
    (∀ v, s.minCoolTargetProperty.value = some v →
      s.deadbandProperty.value = none → s.heatTargetProperty.value ≠ none →
      updateMinimum s = s) ∧
    (∀ v, s.minCoolTargetProperty.value = some v →
      s.deadbandProperty.value ≠ none → s.heatTargetProperty.value = none →
      updateMinimum s = s) ∧
    (∀ mc, s.minCoolTargetProperty.value = some (.jsNum mc) →
      s.deadbandProperty.value = none → s.heatTargetProperty.value = none →
      (updateMinimum s).coolTargetProperty.minimum = some (.jsNum mc)) ∧
    (∀ (d mh c mc h : ℚ),
      s.maxHeatTargetProperty.value = some (.jsNum mh) →
      s.coolTargetProperty.value = some (.jsNum c) →
      s.minCoolTargetProperty.value = some (.jsNum mc) →
      s.heatTargetProperty.value = some (.jsNum h) →
      (setDeadbandValue s d).heatTargetProperty.maximum
          = some (.jsNum (min mh (c - d))) ∧
      (setDeadbandValue s d).coolTargetProperty.minimum
          = some (.jsNum (max mc (h + d)))) := by
  refine ⟨?_, ?_, ?_, ?_, ?_, ?_, ?_, ?_, ?_⟩
  · intro h0
    simp [updateMaximum, h0]
  · intro v hv hd hc
    simp [updateMaximum, hv, hd, hc]
  · intro v hv hd hc
    simp [updateMaximum, hv, hd, hc]
  · intro mh hv hd hc
    simp [updateMaximum, hv, hd, hc, TProp.setMaximum]
  · intro h0
    simp [updateMinimum, h0]
  · intro v hv hd hh
    simp [updateMinimum, hv, hd, hh]
  · intro v hv hd hh
    simp [updateMinimum, hv, hd, hh]
  · intro mc hv hd hh
    simp [updateMinimum, hv, hd, hh, TProp.setMinimum]
  · intro d mh c mc h hmh hc hmc hh
    constructor
    · simp [setDeadbandValue, updateMaximum, updateMinimum, hmh, hc, hmc, hh,
        TProp.setMaximum, TProp.setMinimum, JVal.toQ]
    · simp [setDeadbandValue, updateMaximum, updateMinimum, hmh, hc, hmc, hh,
        TProp.setMaximum, TProp.setMinimum, JVal.toQ]

/-- A thermostat state in which the user max-heat bound and the deadband are
known but the cool target is not. -/
def deferralState2 : ThermostatGraph :=
  { maxHeatTargetProperty := { value := some (.jsNum 30) },
    deadbandProperty := { value := some (.jsNum 2) } }

theorem updateMaximum_deferral_amended_witness :
    updateMaximum deferralState2 = deferralState2 :=
  (updateMaximum_deferral_amended deferralState2).2.2.1 (.jsNum 30) rfl (by simp [deferralState2])
    rfl

/-- Addition on the color pipeline's numbers.  A JavaScript number is
modelled as `Option ℚ`: `none` stands for a non-finite value (the NaN or
±Infinity produced by an unguarded division by zero), and every arithmetic
step of this pipeline propagates non-finiteness, as the IEEE operations do on
the values that actually arise here. -/
def jadd : Option ℚ → Option ℚ → Option ℚ
  | some a, some b => some (a + b)
  | _, _ => none

/-- Subtraction on the color pipeline's numbers. -/
def jsub : Option ℚ → Option ℚ → Option ℚ
  | some a, some b => some (a - b)
  | _, _ => none

/-- Multiplication on the color pipeline's numbers. -/
def jmul : Option ℚ → Option ℚ → Option ℚ
  | some a, some b => some (a * b)
  | _, _ => none

/-- Division on the color pipeline's numbers: division by zero yields a
non-finite value. -/
def jdiv : Option ℚ → Option ℚ → Option ℚ
  | some a, some b => if b = 0 then none else some (a / b)
  | _, _ => none

/-- Negation on the color pipeline's numbers. -/
def jneg : Option ℚ → Option ℚ := Option.map fun q => -q

/-- `Math.max` (NaN-propagating). -/
def jmax : Option ℚ → Option ℚ → Option ℚ
  | some a, some b => some (max a b)
  | _, _ => none

/-- `Math.min` (NaN-propagating). -/
def jmin : Option ℚ → Option ℚ → Option ℚ
  | some a, some b => some (min a b)
  | _, _ => none

/-- `limit(value, min, max) = Math.max(Math.min(value, max), min)` from the
zigbee2mqtt property module. -/
def limit (value lo hi : Option ℚ) : Option ℚ := jmax (jmin value hi) lo

/-- `Math.round` on a pipeline number. -/
def jround : Option ℚ → Option ℤ := Option.map jsRound

/-- The per-channel gamma encoding inside `xyBriToRgb`:
`v ≤ 0.0031308 → 12.92·v`, else `1.055·v^(1/2.4) − 0.055`.  `pw` abstracts
`Math.pow (·, 1/2.4)`; its value on finite inputs is irrelevant to the
claim settled here. -/
def gammaEncode (pw : ℚ → ℚ) : Option ℚ → Option ℚ
  | none => none
  | some v => if v ≤ 0.0031308 then some (12.92 * v) else some ((1 + 0.055) * pw v - 0.055)

/-- `xyBriToRgb` from the zigbee2mqtt property module: chromaticity `(x, y)`
plus brightness to RGB via the CIE linear transform, gamma encoding,
normalization by the largest channel and clamping to `[0, 255]`.  The
division `Y / y` is unguarded. -/
def xyBriToRgb (pw : ℚ → ℚ) (x y bri : ℚ) : Option ℤ × Option ℤ × Option ℤ :=
  let z : ℚ := 1 - x - y
  let bigY := jdiv (some bri) (some 255)
  let bigX := jmul (jdiv bigY (some y)) (some x)
  let bigZ := jmul (jdiv bigY (some y)) (some z)
  let r := jsub (jsub (jmul bigX (some 1.612)) (jmul bigY (some 0.203)))
    (jmul bigZ (some 0.302))
  let g := jadd (jadd (jmul (jneg bigX) (some 0.509)) (jmul bigY (some 1.412)))
    (jmul bigZ (some 0.066))
  let b := jadd (jsub (jmul bigX (some 0.026)) (jmul bigY (some 0.072)))
    (jmul bigZ (some 0.962))
  let r := gammaEncode pw r
  let g := gammaEncode pw g
  let b := gammaEncode pw b
  let maxValue := jmax r (jmax g b)
  let r := jdiv r maxValue
  let g := jdiv g maxValue
  let b := jdiv b maxValue
  let r := limit (jmul r (some 255)) (some 0) (some 255)
  let g := limit (jmul g (some 255)) (some 0) (some 255)
  let b := limit (jmul b (some 255)) (some 0) (some 255)
  (jround r, jround g, jround b)

theorem jmul_none (b : Option ℚ) : jmul none b = none := rfl

theorem jsub_none (b : Option ℚ) : jsub none b = none := rfl

theorem jadd_none (b : Option ℚ) : jadd none b = none := rfl

theorem jdiv_none (b : Option ℚ) : jdiv none b = none := rfl

theorem jmax_none (b : Option ℚ) : jmax none b = none := rfl

theorem jmin_none (b : Option ℚ) : jmin none b = none := rfl

theorem jneg_none : jneg none = none := rfl

theorem gammaEncode_none (pw : ℚ → ℚ) : gammaEncode pw none = none := rfl

theorem jround_none : jround none = none := rfl

/-- C10: the chromaticity-to-sRGB conversion divides by the `y` coordinate
without a guard, so for the input `y = 0` — any `x`, any brightness, any
interpretation `pw` of `Math.pow` — all three computed channels are
non-finite (`none` in this model).  Finite, clamped integer channels in
`[0, 255]` can therefore arise only under the precondition `y ≠ 0`. -/
theorem xyBriToRgb_y_zero_not_finite (pw : ℚ → ℚ) (x bri : ℚ) :
    xyBriToRgb pw x 0 bri = (none, none, none) := by
  have hY : jdiv (some bri) (some 255) = some (bri / 255) := by
    norm_num [jdiv]
  have hX : jdiv (some (bri / 255)) (some (0 : ℚ)) = none := by
    simp [jdiv]
  simp only [xyBriToRgb, hY, hX, limit, jmul_none, jsub_none, jadd_none, jneg_none,
    gammaEncode_none, jmax_none, jmin_none, jdiv_none, jround_none]

end Zb
